import Mathlib

/-!
Verification of the patch-application and pull-request orchestration pipeline
of the autofix agent (`src/lambda/tools/github_tool.py`,
`src/lambda/agent_orchestrator.py`, `src/lambda/webhook_handler.py`).

The Python code is shallowly embedded: each Python function becomes a Lean
function of the same name, remote HTTP effects are modelled by an explicit
environment (`Env`) that fixes the outcome of every remote call, and the
sequence of remote requests a function issues is returned as an explicit
trace (`List Request`).  Python `str` operations are modelled structurally
over the character list of a `String`, matching Python semantics
(`str.split`, `str.startswith`, slicing, `'\x0a'.join`, truthiness).
-/

namespace AutoFix

/-! ## Python string primitives -/

/-- Python `s.split('\n')` on the character list: splitting on a single
newline character, keeping empty pieces (so `''.split('\n') == ['']`). -/
def splitNlAux : List Char → List (List Char)
  | [] => [[]]
  | c :: cs =>
      let r := splitNlAux cs
      if c = '\n' then [] :: r
      else
        match r with
        | [] => [[c]]
        | h :: t => (c :: h) :: t

/-- Python `patch_content.split('\n')`. -/
def splitNl (s : String) : List String := (splitNlAux s.data).map String.mk

/-- Auxiliary: is the first list a leading segment of the second? -/
def listStarts : List Char → List Char → Bool
  | [], _ => true
  | _ :: _, [] => false
  | p :: ps, c :: cs => p = c && listStarts ps cs

/-- Python `line.startswith(pre)`. -/
def pyStarts (s pre : String) : Bool := listStarts pre.data s.data

/-- Python `line[n:]` (character slicing). -/
def pyDrop (s : String) (n : Nat) : String := String.mk (s.data.drop n)

/-- Python truthiness of an optional string (`None` and `''` are falsy). -/
def pyTruthy : Option String → Bool
  | none => false
  | some s => !s.data.isEmpty

/-- Python `str(x)` for an optional string (`str(None) == 'None'`). -/
def pyStr : Option String → String
  | none => "None"
  | some s => s

/-- Python `'\n'.join(lines)`. -/
def joinNl : List String → String
  | [] => ""
  | [x] => x
  | x :: y :: xs => x ++ "\n" ++ joinNl (y :: xs)

/-- Python dict assignment `d[k] = v`: replaces in place when the key is
present (keeping its insertion position), appends otherwise. -/
def dictSet (m : List (String × Option String)) (k : String) (v : Option String) :
    List (String × Option String) :=
  match m with
  | [] => [(k, v)]
  | (k0, v0) :: rest => if k0 = k then (k0, v) :: rest else (k0, v0) :: dictSet rest k v

/-! ## DiffParser: `GitHubTool._parse_patch` -/

/-- Loop state of `_parse_patch`: the accumulated `files` dict, the current
candidate path, the accumulated content lines, and the in-hunk flag. -/
structure ParseState where
  files : List (String × Option String)
  currentFile : Option String
  currentContent : List String
  inHunk : Bool

/-- One iteration of the line loop of `GitHubTool._parse_patch`
(`github_tool.py` lines 419-444), branch for branch. -/
def parseLine (st : ParseState) (line : String) : ParseState :=
  if pyStarts line "--- a/" then
    { st with currentFile := some (pyDrop line 6), currentContent := [], inHunk := false }
  else if pyStarts line "+++ b/" then
    { st with
        files := if pyTruthy st.currentFile then
            dictSet st.files (st.currentFile.getD "") none
          else st.files,
        inHunk := true }
  else if st.inHunk && pyTruthy st.currentFile then
    if pyStarts line "+" && !pyStarts line "+++" then
      { st with currentContent := st.currentContent ++ [pyDrop line 1] }
    else if pyStarts line " " || pyStarts line "-" then
      if pyStarts line " " then
        { st with currentContent := st.currentContent ++ [pyDrop line 1] }
      else st
    else if pyStarts line "@@" then st
    else if st.currentContent.isEmpty then st
    else
      { st with
          files := dictSet st.files (st.currentFile.getD "")
            (some (joinNl st.currentContent)) }
  else st

/-- Embeds `GitHubTool._parse_patch`: split on newlines, run the line loop, return
the path-to-content dict (`none` models Python `None`). -/
def parsePatch (patchContent : String) : List (String × Option String) :=
  (List.foldl parseLine ⟨[], none, [], false⟩ (splitNl patchContent)).files

/-! ## Remote environment and request traces

Every GitHub HTTP call the tool makes is recorded as a `Request`; the
outcome of each call is fixed by an `Env` oracle.  A single patch
application works against one repository and one branch throughout, so the
environment is the state of that branch as seen by the sequential calls. -/

/-- One remote API request issued by the tool. -/
inductive Request where
  /-- The `GET /repos/<repo>` call (issued by `get_default_branch`). -/
  | getRepo : Request
  /-- The `GET /repos/<repo>/git/refs/heads/<branch>` call (issued by `get_branch_sha`). -/
  | getBranchRef (branch : String) : Request
  /-- The `POST /repos/<repo>/git/refs` call creating `branchName` at `sha`. -/
  | postCreateRef (branchName : String) (sha : String) : Request
  /-- The `GET /repos/<repo>/contents/<path>` call (issued by `get_file_content`). -/
  | getFile (path : String) : Request
  /-- A `PUT /repos/<repo>/contents/<path>` call without a `sha` field (`create_file`). -/
  | putCreate (path : String) (content : String) : Request
  /-- A `PUT /repos/<repo>/contents/<path>` call with a `sha` field (`update_file`);
  `sha = none` models Python sending `"sha": None`. -/
  | putUpdate (path : String) (content : String) (sha : Option String) : Request
  /-- A `DELETE /repos/<repo>/contents/<path>` call with a `sha` field (`_delete_file`). -/
  | deleteFile (path : String) (sha : Option String) : Request
  /-- The `POST /repos/<repo>/pulls` call (`create_pull_request`). -/
  | postPull (headBranch : String) (baseBranch : Option String) : Request
  /-- CodeBuild `start_build` (`CodeBuildTool.run_tests`). -/
  | runTests (project : String) (branch : String) : Request
  /-- S3 `put_object` of the artifact record (`S3Tool.store_artifact`). -/
  | storeArtifact (bucket : String) : Request
deriving DecidableEq

/-- A file as stored on the remote branch: decoded content and blob sha. -/
structure RemoteFile where
  content : String
  sha : String
deriving DecidableEq

/-- Oracle fixing the outcome of every remote call during one orchestration
request.  `none` results model failed HTTP requests (any status >= 400,
rate limiting, or transport errors, all of which `_make_request` maps to
`success: False`). -/
structure Env where
  /-- Result of `get_default_branch` (`none` = the `GET /repos` call failed). -/
  defaultBranchResult : Option String
  /-- Result of `get_branch_sha` per base branch (`none` = failure or missing sha). -/
  branchSha : String → Option String
  /-- Remote file lookup per path (`none` = the `GET contents` call failed, e.g. 404). -/
  getFile : String → Option RemoteFile
  /-- Whether the remote accepts a given write request. -/
  writeOk : Request → Bool
  /-- The `CODEBUILD_PROJECT` environment variable. -/
  codebuildProject : Option String
  /-- The `S3_BUCKET` environment variable. -/
  s3Bucket : Option String
  /-- Result of `CodeBuildTool.run_tests` (`some buildId` = success). -/
  runTestsResult : Option String
  /-- Whether the S3 artifact write succeeds. -/
  storeOk : Bool
  /-- The timestamp component of the generated branch name. -/
  nonce : String
  /-- The `html_url` of a successfully created pull request. -/
  prUrl : Option String

/-- Result dict of a simple tool call (`success` plus optional `error`). -/
structure CallResult where
  success : Bool
  error : Option String
deriving DecidableEq

/-- Result dict of `get_file_content`. -/
structure FileInfo where
  success : Bool
  content : Option String
  sha : Option String
  error : Option String
deriving DecidableEq

/-! ## RemoteTreeClient: the `GitHubTool` methods -/

/-- Embeds `GitHubTool.get_file_content` (lines 188-227).  On a successful request
the code only extracts `content`/`sha` when the base64 `content` field is
non-empty; for an empty remote file it returns the raw request result,
which carries no top-level `sha` key (so `.get('sha')` yields `None`). -/
def get_file_content (env : Env) (path : String) : FileInfo × List Request :=
  match env.getFile path with
  | none =>
      ({ success := false, content := none, sha := none,
         error := some "GitHub API error" }, [.getFile path])
  | some f =>
      if !f.content.data.isEmpty then
        ({ success := true, content := some f.content, sha := some f.sha,
           error := none }, [.getFile path])
      else
        ({ success := true, content := none, sha := none, error := none },
         [.getFile path])

/-- Embeds `GitHubTool.update_file` (lines 229-286): refetches the sha when the
caller passed a falsy one, fails without writing when that fetch fails,
then issues the `PUT` carrying whatever sha it holds. -/
def update_file (env : Env) (path content : String) (sha0 : Option String) :
    CallResult × List Request :=
  if !pyTruthy sha0 then
    let fi := get_file_content env path
    if !fi.1.success then
      ({ success := false,
         error := some ("Could not get file SHA: " ++ pyStr fi.1.error) }, fi.2)
    else
      let r : Request := .putUpdate path content fi.1.sha
      ({ success := env.writeOk r,
         error := if env.writeOk r then none else some "GitHub API error" },
       fi.2 ++ [r])
  else
    let r : Request := .putUpdate path content sha0
    ({ success := env.writeOk r,
       error := if env.writeOk r then none else some "GitHub API error" }, [r])

/-- Embeds `GitHubTool.create_file` (lines 288-333): a `PUT` without a sha field. -/
def create_file (env : Env) (path content : String) : CallResult × List Request :=
  let r : Request := .putCreate path content
  ({ success := env.writeOk r,
     error := if env.writeOk r then none else some "GitHub API error" }, [r])

/-- Embeds `GitHubTool._delete_file` (lines 448-494): reads the file first, aborts
without writing when the read fails, then issues the `DELETE` carrying the
sha extracted from the read. -/
def delete_file (env : Env) (path : String) : CallResult × List Request :=
  let fi := get_file_content env path
  if !fi.1.success then
    ({ success := false,
       error := some ("Could not get file SHA for deletion: " ++ pyStr fi.1.error) },
     fi.2)
  else
    let r : Request := .deleteFile path fi.1.sha
    ({ success := env.writeOk r,
       error := if env.writeOk r then none else some "GitHub API error" },
     fi.2 ++ [r])

/-- Per-file outcome recorded by `apply_patch` (lines 380-384). -/
structure OperationResult where
  filePath : String
  success : Bool
  error : Option String
deriving DecidableEq

/-- Aggregate result of `apply_patch` (lines 390-395). -/
structure PatchResult where
  success : Bool
  filesProcessed : Nat
  filesSucceeded : Nat
  results : List OperationResult
  error : Option String
deriving DecidableEq

/-- The per-file body of the `apply_patch` loop (lines 360-384): a `None`
content means deletion; otherwise a read decides between update (carrying
the sha from the read) and create. -/
def applyFile (env : Env) (path : String) (content : Option String) :
    OperationResult × List Request :=
  match content with
  | none =>
      let r := delete_file env path
      ({ filePath := path, success := r.1.success, error := r.1.error }, r.2)
  | some c =>
      let fi := get_file_content env path
      if fi.1.success then
        let r := update_file env path c fi.1.sha
        ({ filePath := path, success := r.1.success, error := r.1.error },
         fi.2 ++ r.2)
      else
        let r := create_file env path c
        ({ filePath := path, success := r.1.success, error := r.1.error },
         fi.2 ++ r.2)

/-- Embeds `GitHubTool.apply_patch` (lines 335-402): parse, bail out on an empty
change set, otherwise attempt every file and aggregate. -/
def apply_patch (env : Env) (patchContent : String) : PatchResult × List Request :=
  let patchFiles := parsePatch patchContent
  if patchFiles.isEmpty then
    ({ success := false, filesProcessed := 0, filesSucceeded := 0, results := [],
       error := some "No valid file changes found in patch" }, [])
  else
    let step := patchFiles.foldl
      (fun acc pf =>
        let r := applyFile env pf.1 pf.2
        (acc.1 ++ [r.1], acc.2 ++ r.2))
      (([], []) : List OperationResult × List Request)
    let successCount := (step.1.filter (fun o => o.success)).length
    let totalCount := step.1.length
    ({ success := successCount == totalCount, filesProcessed := totalCount,
       filesSucceeded := successCount, results := step.1, error := none }, step.2)

/-- Result dict of `create_branch`. -/
structure BranchResult where
  success : Bool
  branchName : Option String
  sha : Option String
  error : Option String
deriving DecidableEq

/-- Embeds `GitHubTool.get_default_branch` (lines 99-112). -/
def get_default_branch (env : Env) : Option String × List Request :=
  (env.defaultBranchResult, [.getRepo])

/-- Embeds `GitHubTool.get_branch_sha` (lines 114-130). -/
def get_branch_sha (env : Env) (branch : String) : Option String × List Request :=
  (env.branchSha branch, [.getBranchRef branch])

/-- The tail of `GitHubTool.create_branch` after the base branch is known
(lines 154-179): fetch the base head sha, abort on failure, then post the
new ref. -/
def create_branch_from (env : Env) (branchName base : String)
    (reqs0 : List Request) : BranchResult × List Request :=
  let s := get_branch_sha env base
  if !pyTruthy s.1 then
    ({ success := false, branchName := none, sha := none,
       error := some ("Could not get SHA for base branch " ++ base) },
     reqs0 ++ s.2)
  else
    let r : Request := .postCreateRef branchName (s.1.getD "")
    ({ success := env.writeOk r,
       branchName := if env.writeOk r then some branchName else none,
       sha := if env.writeOk r then s.1 else none,
       error := if env.writeOk r then none else some "GitHub API error" },
     reqs0 ++ s.2 ++ [r])

/-- Embeds `GitHubTool.create_branch` (lines 132-186): resolve the base branch
(via the repository's default branch when the argument is falsy), then
create the ref from its head sha. -/
def create_branch (env : Env) (branchName : String) (baseBranch0 : Option String) :
    BranchResult × List Request :=
  if !pyTruthy baseBranch0 then
    let db := get_default_branch env
    if !pyTruthy db.1 then
      ({ success := false, branchName := none, sha := none,
         error := some "Could not determine default branch" }, db.2)
    else
      create_branch_from env branchName (db.1.getD "") db.2
  else
    create_branch_from env branchName (baseBranch0.getD "") []

/-- Embeds `GitHubTool.create_pull_request` (lines 496-542): resolve the base
branch when falsy, then post the pull request (the PR body and title do not
influence any remote outcome and are omitted from the request trace). -/
def create_pull_request (env : Env) (headBranch : String)
    (baseBranch0 : Option String) : CallResult × List Request :=
  let resolved :=
    if !pyTruthy baseBranch0 then (get_default_branch env).1 else baseBranch0
  let reqs0 : List Request :=
    if !pyTruthy baseBranch0 then (get_default_branch env).2 else []
  let r : Request := .postPull headBranch resolved
  ({ success := env.writeOk r,
     error := if env.writeOk r then none else some "GitHub API error" },
   reqs0 ++ [r])

/-! ## PatchCoordinator: `execute_agent_actions` (`agent_orchestrator.py`) -/

/-- The fields of the agent response that drive `execute_agent_actions`. -/
structure AgentResponse where
  canAutoFix : Bool
  patch : Option String
deriving DecidableEq

/-- The `results` dict built by `execute_agent_actions`. -/
structure ExecResults where
  success : Bool
  actionsTaken : List String
  errors : List String
  artifacts : List String
  testBuildId : Option String
  prUrl : Option String
deriving DecidableEq

/-- The tail of `execute_agent_actions` after branch creation and patch
application succeeded (lines 291-355): optionally trigger tests, open the
pull request, optionally store the artifact.  Test and artifact failures
are recorded but never abort. -/
def execTail (env : Env) (branchName defaultBranch : String)
    (actions : List String) (reqs : List Request) : ExecResults × List Request :=
  let testStep :=
    if pyTruthy env.codebuildProject then
      match env.runTestsResult with
      | some bid =>
          (actions ++ ["Triggered automated tests"], ([] : List String), some bid,
           reqs ++ [Request.runTests (env.codebuildProject.getD "") branchName])
      | none =>
          (actions, ["Failed to run tests: None"], none,
           reqs ++ [Request.runTests (env.codebuildProject.getD "") branchName])
    else (actions, [], none, reqs)
  let pr := create_pull_request env branchName (some defaultBranch)
  let afterPr :=
    if pr.1.success then
      (true, testStep.1 ++ ["Created pull request"], testStep.2.1, env.prUrl)
    else
      (false, testStep.1, testStep.2.1 ++ ["Failed to create PR: " ++ pyStr pr.1.error],
       (none : Option String))
  let reqs2 := testStep.2.2.2 ++ pr.2
  let artStep :=
    if pyTruthy env.s3Bucket then
      let b := env.s3Bucket.getD ""
      if env.storeOk then
        (["s3://" ++ b], afterPr.2.2.1, reqs2 ++ [Request.storeArtifact b])
      else
        (([] : List String), afterPr.2.2.1 ++ ["Failed to store artifact: None"],
         reqs2 ++ [Request.storeArtifact b])
    else ([], afterPr.2.2.1, reqs2)
  ({ success := afterPr.1, actionsTaken := afterPr.2.1, errors := artStep.2.1,
     artifacts := artStep.1, testBuildId := testStep.2.2.1, prUrl := afterPr.2.2.2 },
   artStep.2.2)

/-- Embeds `execute_agent_actions` (lines 227-360): create the branch (aborting on
failure), apply the patch when one is provided (aborting on failure),
run tests, open the PR, store artifacts.  `issueNumber` is the already
formatted issue number used in the branch name; `defaultBranch` is
`repo_context.get('default_branch', 'main')`. -/
def execute_agent_actions (env : Env) (resp : AgentResponse)
    (issueNumber defaultBranch : String) : ExecResults × List Request :=
  if !resp.canAutoFix then
    ({ success := false, actionsTaken := [], errors := [], artifacts := [],
       testBuildId := none, prUrl := none }, [])
  else
    let branchName := "autofix-" ++ issueNumber ++ "-" ++ env.nonce
    let br := create_branch env branchName (some defaultBranch)
    if !br.1.success then
      ({ success := false, actionsTaken := [],
         errors := ["Failed to create branch: " ++ pyStr br.1.error],
         artifacts := [], testBuildId := none, prUrl := none }, br.2)
    else
      let actions1 := ["Created branch: " ++ branchName]
      if pyTruthy resp.patch then
        let pr := apply_patch env (resp.patch.getD "")
        if !pr.1.success then
          ({ success := false, actionsTaken := actions1,
             errors := ["Failed to apply patch: " ++ pyStr pr.1.error],
             artifacts := [], testBuildId := none, prUrl := none }, br.2 ++ pr.2)
        else
          execTail env branchName defaultBranch (actions1 ++ ["Applied code patch"])
            (br.2 ++ pr.2)
      else
        execTail env branchName defaultBranch actions1 br.2

/-! ## `GitHubTool._make_request` (lines 35-84)

The function makes exactly one HTTP attempt and classifies the response.
The provider's behaviour is modelled as the stream of responses it would
give to successive attempts; `makeRequest` consumes the head and leaves the
rest untouched, which makes the absence of any internal retry visible. -/

/-- Classification of a single HTTP response as seen by `_make_request`. -/
inductive HttpResponse where
  /-- A response with status below 400. -/
  | ok (statusCode : Nat) : HttpResponse
  /-- A 403 response whose body mentions the rate limit; `resetAt` is the
  `X-RateLimit-Reset` header. -/
  | rateLimited (resetAt : Nat) : HttpResponse
  /-- Any other response with status 400 or above. -/
  | httpError (statusCode : Nat) (text : String) : HttpResponse
  /-- A `requests.exceptions.RequestException` (timeout, connection error). -/
  | transportError (msg : String) : HttpResponse
deriving DecidableEq

/-- The dict `_make_request` returns (the fields the callers look at). -/
structure HttpResult where
  success : Bool
  error : Option String
  retryAfter : Option Nat
deriving DecidableEq

/-- The response classification of `_make_request` (lines 56-84). -/
def classifyResponse : HttpResponse → HttpResult
  | .rateLimited t =>
      { success := false, error := some "GitHub API rate limit exceeded",
        retryAfter := some t }
  | .httpError c t =>
      { success := false,
        error := some ("GitHub API error: " ++ toString c ++ " - " ++ t),
        retryAfter := none }
  | .ok _ => { success := true, error := none, retryAfter := none }
  | .transportError m =>
      { success := false, error := some ("Request failed: " ++ m),
        retryAfter := none }

/-- Embeds `_make_request` against the provider's response stream: one attempt,
one response consumed, the remainder of the stream untouched. -/
def makeRequest : List HttpResponse → HttpResult × List HttpResponse
  | [] =>
      ({ success := false, error := some "Request failed: no response",
         retryAfter := none }, [])
  | r :: rest => (classifyResponse r, rest)

/-! ## Webhook eligibility: `should_process_issue` (`webhook_handler.py`) -/

/-- The fields of the extracted issue context that `should_process_issue`
reads.  `assignee` is `some login` when the issue has an assignee (a
non-empty, hence truthy, user object) and `none` otherwise. -/
structure IssueCtx where
  assignee : Option String
  state : Option String
  labels : List String
deriving DecidableEq

/-- The configured skip-list (`webhook_handler.py` line 126). -/
def skip_labels : List String := ["needs-review", "complex", "breaking-change", "security"]

/-- Embeds `should_process_issue` (lines 105-133). -/
def should_process_issue (ctx : IssueCtx) : Bool :=
  if ctx.assignee.isSome then false
  else if ctx.state == some "closed" then false
  else if skip_labels.any (fun l => ctx.labels.contains l) then false
  else ctx.state == some "open"

/-! ## Request classification helpers -/

/-- Is the request a pull-request creation? -/
def Request.isPull : Request → Bool
  | .postPull _ _ => true
  | _ => false

/-- Is the request a file create? -/
def Request.isCreate : Request → Bool
  | .putCreate _ _ => true
  | _ => false

/-- Is the request a file update? -/
def Request.isUpdate : Request → Bool
  | .putUpdate _ _ _ => true
  | _ => false

/-- Is the request one of the branch-setup calls made by `create_branch`? -/
def Request.isBranchOp : Request → Bool
  | .getRepo => true
  | .getBranchRef _ => true
  | .postCreateRef _ _ => true
  | _ => false

/-- Is the request a per-file read/write/delete or a pull-request creation? -/
def Request.isFileOrPrOp : Request → Bool
  | .getFile _ => true
  | .putCreate _ _ => true
  | .putUpdate _ _ _ => true
  | .deleteFile _ _ => true
  | .postPull _ _ => true
  | _ => false

/-! ## Line shapes used to state parser theorems

These Bool predicates are spelled with the parser's own tests, so a
hypothesis such as `isHunkBodyLine l = true` says exactly which branch of
`_parse_patch` the line takes. -/

/-- A line the in-hunk loop keeps: an added line (`+` but not `+++`) or a
context line (single leading space); its one-character marker is stripped. -/
def keepLine (l : String) : Bool :=
  (pyStarts l "+" && !pyStarts l "+++") || pyStarts l " "

/-- A line the in-hunk loop recognizes without ending the hunk: an added,
context, removed, or `@@` line which is not a file header. -/
def isHunkBodyLine (l : String) : Bool :=
  !pyStarts l "--- a/" && !pyStarts l "+++ b/" &&
    ((pyStarts l "+" && !pyStarts l "+++") || pyStarts l " " ||
      pyStarts l "-" || pyStarts l "@@")

/-- A line the in-hunk loop does not recognize: it ends the current hunk's
accumulation (flushes the content gathered so far). -/
def isTermLine (l : String) : Bool :=
  !pyStarts l "--- a/" && !pyStarts l "+++ b/" &&
    !(pyStarts l "+" && !pyStarts l "+++") && !pyStarts l " " &&
    !pyStarts l "-" && !pyStarts l "@@"

/-- The reconstructed content lines of a hunk body: the context and added
lines, in input order, with their one-character markers stripped (removed
`-` lines and `@@` delimiters contribute nothing). -/
def stripBody (body : List String) : List String :=
  body.filterMap (fun l => if keepLine l then some (pyDrop l 1) else none)

/-! ## Concrete fixtures for witnesses and counterexamples -/

/-- A branch state where every remote call succeeds and no file exists yet
(an empty repository); CodeBuild and S3 are unconfigured. -/
def envNone : Env :=
  { defaultBranchResult := some "main"
    branchSha := fun _ => some "headsha"
    getFile := fun _ => none
    writeOk := fun _ => true
    codebuildProject := none
    s3Bucket := none
    runTestsResult := none
    storeOk := true
    nonce := "1700000000"
    prUrl := some "https://example.invalid/pr/1" }

/-- Like `envNone` but the write of file `f2` is rejected (a `Conflict`). -/
def env1 : Env :=
  { envNone with
      writeOk := fun r =>
        match r with
        | .putCreate p _ => if p = "f2" then false else true
        | _ => true }

/-- A remote holding one file whose content is empty (`empty.txt`, blob sha
`abc123`), everything else absent. -/
def env7 : Env :=
  { envNone with
      getFile := fun p =>
        if p = "empty.txt" then some { content := "", sha := "abc123" } else none }

/-- An environment where fetching any branch head sha fails, so branch
creation cannot succeed. -/
def env8 : Env :=
  { envNone with branchSha := fun _ => none }

/-- A remote holding `a.py` with content `old` and sha `sha1`. -/
def envDel : Env :=
  { envNone with
      getFile := fun p =>
        if p = "a.py" then some { content := "old", sha := "sha1" } else none }

/-- A three-file patch whose hunks are each terminated by a blank line (the
blank line is unrecognized in-hunk and flushes the accumulated content). -/
def patch3 : String :=
  "--- a/f1\n+++ b/f1\n@@ -0,0 +1 @@\n+c1\n\n--- a/f2\n+++ b/f2\n@@ -0,0 +1 @@\n+c2\n\n--- a/f3\n+++ b/f3\n@@ -0,0 +1 @@\n+c3\n"

/-- An agent response that can auto-fix and carries `patch3`. -/
def resp1 : AgentResponse := { canAutoFix := true, patch := some patch3 }

/-- A diff with two sections for the same path `f` (contents `one`, then
`two`), each terminated by an unrecognized `END` line. -/
def dupPatch : String :=
  "--- a/f\n+++ b/f\n@@ -0,0 +1 @@\n+one\nEND\n--- a/f\n+++ b/f\n@@ -0,0 +1 @@\n+two\nEND\n"

/-- A second duplicate-path diff (path `g`) used to instantiate the general
overwrite theorem. -/
def dupPatchG : String :=
  "--- a/g\n+++ b/g\n@@ -0,0 +1 @@\n+alpha\nEND\n--- a/g\n+++ b/g\n@@ -0,0 +2 @@\n+beta\n+gamma\nEND"

/-- A malformed input: leading garbage, a file section, and a hunk header
followed by nothing. -/
def garbagePatch : String := "garbage line\n--- a/x\n+++ b/x\n@@@nonsense"

/-- A single-file, single-hunk, add-only diff terminated by the empty line
produced by its trailing newline. -/
def createPatch : String := "--- a/f.txt\n+++ b/f.txt\n@@ -0,0 +1 @@\n+hello\n"

/-- The same diff without the trailing newline: the input ends while still
inside the hunk, so the accumulated content is never flushed. -/
def createPatchNoNl : String := "--- a/f.txt\n+++ b/f.txt\n@@ -0,0 +1 @@\n+hello"

/-- A diff whose final section ends at end-of-input inside a hunk, with a
context line and an added line accumulated. -/
def danglingPatch : String := "--- a/a.py\n+++ b/a.py\n@@ -1,2 +1,3 @@\n line1\n+added"

/-- An unassigned open issue carrying only a `bug` label. -/
def ctx0 : IssueCtx := { assignee := none, state := some "open", labels := ["bug"] }

/-! ## Parser lemmas -/

/-- A non-empty path string is truthy. -/
theorem pyTruthy_some (p : String) (h : p ≠ "") : pyTruthy (some p) = true := by
  cases p with
  | mk d =>
    cases d with
    | nil => exact absurd rfl h
    | cons c cs => rfl

/-- Overwriting the same key twice keeps only the second value. -/
theorem dictSet_dictSet (m : List (String × Option String)) (k : String)
    (v w : Option String) : dictSet (dictSet m k v) k w = dictSet m k w := by
  induction m with
  | nil => simp [dictSet]
  | cons e rest ih =>
    by_cases h : e.1 = k
    · simp [dictSet, h]
    · simp [dictSet, h, ih]

/-- Membership after a dict assignment: the entry is either the assigned
key or was already present. -/
theorem mem_dictSet (m : List (String × Option String)) (k : String)
    (v : Option String) (e : String × Option String) (he : e ∈ dictSet m k v) :
    e.1 = k ∨ ∃ w, (e.1, w) ∈ m := by
  induction m with
  | nil =>
    simp [dictSet] at he
    simp [he]
  | cons e0 rest ih =>
    by_cases h : e0.1 = k
    · simp [dictSet, h] at he
      rcases he with he | he
      · left; simp [he]
      · right; exact ⟨e.2, by simp [he]⟩
    · simp [dictSet, h] at he
      rcases he with he | he
      · right; exact ⟨e.2, by simp [he]⟩
      · rcases ih he with h1 | ⟨w, hw⟩
        · exact Or.inl h1
        · exact Or.inr ⟨w, by simp [hw]⟩

/-- The `--- a/` branch of the line loop. -/
theorem parseLine_old (st : ParseState) (l : String)
    (h : pyStarts l "--- a/" = true) :
    parseLine st l = ⟨st.files, some (pyDrop l 6), [], false⟩ := by
  simp [parseLine, h]

/-- The `+++ b/` branch of the line loop. -/
theorem parseLine_new (st : ParseState) (l : String)
    (h1 : pyStarts l "--- a/" = false) (h2 : pyStarts l "+++ b/" = true) :
    parseLine st l =
      ⟨if pyTruthy st.currentFile then
          dictSet st.files (st.currentFile.getD "") none
        else st.files,
       st.currentFile, st.currentContent, true⟩ := by
  simp [parseLine, h1, h2]

/-- A recognized in-hunk line only appends its stripped content (if any)
to the accumulator. -/
theorem parseLine_body (fs : List (String × Option String)) (cf : Option String)
    (cc : List String) (l : String)
    (hCf : pyTruthy cf = true) (hb : isHunkBodyLine l = true) :
    parseLine ⟨fs, cf, cc, true⟩ l =
      ⟨fs, cf, cc ++ (if keepLine l then [pyDrop l 1] else []), true⟩ := by
  simp only [isHunkBodyLine, Bool.and_eq_true, Bool.not_eq_true',
    Bool.or_eq_true] at hb
  obtain ⟨⟨h1, h2⟩, h3⟩ := hb
  by_cases hk : (pyStarts l "+" && !pyStarts l "+++") = true
  · simp [parseLine, h1, h2, hCf, hk, keepLine]
  · by_cases hsp : pyStarts l " " = true
    · simp [parseLine, h1, h2, hCf, hk, hsp, keepLine]
    · by_cases hda : pyStarts l "-" = true
      · simp [parseLine, h1, h2, hCf, hk, hsp, hda, keepLine]
      · have hat : pyStarts l "@@" = true := by
          rcases h3 with ((h | h) | h) | h
          · exact absurd (by simp [h.1, h.2]) hk
          · exact absurd h hsp
          · exact absurd h hda
          · exact h
        simp [parseLine, h1, h2, hCf, hk, hsp, hda, hat, keepLine]

/-- Folding the line loop over a whole hunk body appends exactly the
stripped context and added lines, in order, and changes nothing else. -/
theorem foldl_hunkBody (body : List String) :
    ∀ (fs : List (String × Option String)) (cf : Option String)
      (cc : List String), pyTruthy cf = true →
    (∀ l ∈ body, isHunkBodyLine l = true) →
    List.foldl parseLine ⟨fs, cf, cc, true⟩ body =
      ⟨fs, cf, cc ++ stripBody body, true⟩ := by
  induction body with
  | nil => intro fs cf cc _ _; simp [stripBody]
  | cons l rest ih =>
    intro fs cf cc hCf hall
    rw [List.foldl_cons, parseLine_body fs cf cc l hCf (hall l (by simp))]
    rw [ih fs cf _ hCf (fun x hx => hall x (by simp [hx]))]
    cases hk : keepLine l <;>
      simp [stripBody, List.filterMap_cons, hk, List.append_assoc]

/-- An unrecognized in-hunk line flushes the accumulated content into the
files dict (when the accumulator is non-empty) and changes nothing else. -/
theorem parseLine_term (fs : List (String × Option String)) (cf : Option String)
    (cc : List String) (l : String)
    (hCf : pyTruthy cf = true) (ht : isTermLine l = true) :
    parseLine ⟨fs, cf, cc, true⟩ l =
      if cc.isEmpty then ⟨fs, cf, cc, true⟩
      else ⟨dictSet fs (cf.getD "") (some (joinNl cc)), cf, cc, true⟩ := by
  simp only [isTermLine, Bool.and_eq_true, Bool.not_eq_true'] at ht
  obtain ⟨⟨⟨⟨⟨h1, h2⟩, h3⟩, h4⟩, h5⟩, h6⟩ := ht
  by_cases hcc : cc.isEmpty
  · simp [parseLine, h1, h2, h3, h4, h5, h6, hCf, hcc]
  · simp [parseLine, h1, h2, h3, h4, h5, h6, hCf, hcc]

/-- Folding the line loop over one complete file section (old header, new
header, recognized hunk body, unrecognized terminator) from any starting
state: the section's path is assigned the reconstructed content (or `none`
when no content line accumulated), replacing any earlier assignment. -/
theorem foldl_section (st : ParseState) (h1 h2 term : String)
    (body : List String) (p : String)
    (hh1 : pyStarts h1 "--- a/" = true) (hp : pyDrop h1 6 = p) (hpne : p ≠ "")
    (hh2a : pyStarts h2 "--- a/" = false) (hh2b : pyStarts h2 "+++ b/" = true)
    (hbody : ∀ l ∈ body, isHunkBodyLine l = true)
    (hterm : isTermLine term = true) :
    List.foldl parseLine st (h1 :: h2 :: (body ++ [term])) =
      ⟨dictSet st.files p
          (if (stripBody body).isEmpty then none
           else some (joinNl (stripBody body))),
        some p, stripBody body, true⟩ := by
  have htr : pyTruthy (some p) = true := pyTruthy_some p hpne
  rw [List.foldl_cons, parseLine_old st h1 hh1, hp, List.foldl_cons]
  rw [parseLine_new _ h2 hh2a hh2b]
  simp only [htr, if_true, Option.getD_some]
  rw [List.foldl_append]
  rw [foldl_hunkBody body _ _ _ htr hbody]
  simp only [List.foldl_cons, List.foldl_nil, List.nil_append]
  rw [parseLine_term _ _ _ term htr hterm]
  cases he : (stripBody body).isEmpty
  · simp only [he, if_false, Bool.false_eq_true, Option.getD_some, dictSet_dictSet]
  · have hsb : stripBody body = [] := by
      cases hx : stripBody body
      · rfl
      · rw [hx] at he; simp at he
    simp [he, hsb]

/-- Folding the line loop over a file section whose hunk runs to the end of
the input (no terminator): the path stays mapped to `none` no matter what
content lines accumulated. -/
theorem foldl_section_noterm (st : ParseState) (h1 h2 : String)
    (body : List String) (p : String)
    (hh1 : pyStarts h1 "--- a/" = true) (hp : pyDrop h1 6 = p) (hpne : p ≠ "")
    (hh2a : pyStarts h2 "--- a/" = false) (hh2b : pyStarts h2 "+++ b/" = true)
    (hbody : ∀ l ∈ body, isHunkBodyLine l = true) :
    List.foldl parseLine st (h1 :: h2 :: body) =
      ⟨dictSet st.files p none, some p, stripBody body, true⟩ := by
  have htr : pyTruthy (some p) = true := pyTruthy_some p hpne
  rw [List.foldl_cons, parseLine_old st h1 hh1, hp, List.foldl_cons]
  rw [parseLine_new _ h2 hh2a hh2b]
  simp only [htr, if_true, Option.getD_some]
  rw [foldl_hunkBody body _ _ _ htr hbody]
  simp

/-! ## Trace classification lemmas -/

/-- A branch-setup request is never a per-file or pull-request operation. -/
theorem isBranchOp_not_fileOrPr (r : Request) (h : r.isBranchOp = true) :
    r.isFileOrPrOp = false := by
  cases r <;> simp_all [Request.isBranchOp, Request.isFileOrPrOp]

/-- A branch-setup request is never a pull-request creation. -/
theorem isBranchOp_not_pull (r : Request) (h : r.isBranchOp = true) :
    r.isPull = false := by
  cases r <;> simp_all [Request.isBranchOp, Request.isPull]

/-- Lemma: `get_file_content` issues exactly one read request. -/
theorem get_file_content_reqs (env : Env) (p : String) :
    (get_file_content env p).2 = [Request.getFile p] := by
  unfold get_file_content
  cases env.getFile p
  · simp
  · simp only
    split <;> rfl

/-- Every request of `create_branch_from` is a branch-setup call. -/
theorem create_branch_from_reqs (env : Env) (n base : String)
    (reqs0 : List Request) (h0 : ∀ r ∈ reqs0, r.isBranchOp = true)
    (r : Request) (hr : r ∈ (create_branch_from env n base reqs0).2) :
    r.isBranchOp = true := by
  simp only [create_branch_from, get_branch_sha] at hr
  split at hr <;>
    simp only [List.mem_append, List.mem_singleton] at hr
  · rcases hr with h | h
    · exact h0 r h
    · subst h; rfl
  · rcases hr with (h | h) | h
    · exact h0 r h
    · subst h; rfl
    · subst h; rfl

/-- Every request of `create_branch` is a branch-setup call. -/
theorem create_branch_reqs (env : Env) (n : String) (b : Option String)
    (r : Request) (hr : r ∈ (create_branch env n b).2) :
    r.isBranchOp = true := by
  simp only [create_branch, get_default_branch] at hr
  split at hr
  · split at hr
    · simp only [List.mem_singleton] at hr
      subst hr; rfl
    · exact create_branch_from_reqs env n _ _
        (by intro x hx; simp only [List.mem_singleton] at hx; subst hx; rfl) r hr
  · exact create_branch_from_reqs env n _ _ (by intro x hx; simp at hx) r hr

/-- Lemma: `update_file` never creates a pull request. -/
theorem update_file_no_pull (env : Env) (p c : String) (sha0 : Option String)
    (r : Request) (hr : r ∈ (update_file env p c sha0).2) :
    r.isPull = false := by
  simp only [update_file, get_file_content_reqs] at hr
  split at hr
  · split at hr
    · simp only [List.mem_singleton] at hr
      subst hr; rfl
    · simp only [List.mem_append, List.mem_singleton] at hr
      rcases hr with h | h
      · subst h; rfl
      · subst h; rfl
  · simp only [List.mem_singleton] at hr
    subst hr; rfl

/-- Lemma: `applyFile` never creates a pull request. -/
theorem applyFile_no_pull (env : Env) (p : String) (oc : Option String)
    (r : Request) (hr : r ∈ (applyFile env p oc).2) :
    r.isPull = false := by
  cases oc with
  | none =>
    simp only [applyFile, delete_file] at hr
    split at hr
    · rw [get_file_content_reqs] at hr
      simp only [List.mem_singleton] at hr
      subst hr; rfl
    · rw [get_file_content_reqs] at hr
      simp only [List.mem_append, List.mem_singleton] at hr
      rcases hr with h | h
      · subst h; rfl
      · subst h; rfl
  | some c =>
    simp only [applyFile] at hr
    split at hr <;>
      rw [get_file_content_reqs] at hr <;>
      simp only [List.mem_append, List.mem_singleton] at hr
    · rcases hr with h | h
      · subst h; rfl
      · exact update_file_no_pull env p c _ r h
    · rcases hr with h | h
      · subst h; rfl
      · simp only [create_file, List.mem_singleton] at h
        subst h; rfl

/-- The per-file loop of `apply_patch` never creates a pull request. -/
theorem foldl_apply_no_pull (env : Env) (l : List (String × Option String)) :
    ∀ acc : List OperationResult × List Request,
    (∀ r ∈ acc.2, r.isPull = false) →
    ∀ r ∈ (l.foldl
        (fun acc pf =>
          let r := applyFile env pf.1 pf.2
          (acc.1 ++ [r.1], acc.2 ++ r.2)) acc).2,
      r.isPull = false := by
  induction l with
  | nil => intro acc hacc r hr; exact hacc r hr
  | cons pf rest ih =>
    intro acc hacc r hr
    refine ih _ ?_ r hr
    intro x hx
    simp only [List.mem_append] at hx
    rcases hx with h | h
    · exact hacc x h
    · exact applyFile_no_pull env pf.1 pf.2 x h

/-- Lemma: `apply_patch` never creates a pull request. -/
theorem apply_patch_no_pull (env : Env) (s : String)
    (r : Request) (hr : r ∈ (apply_patch env s).2) :
    r.isPull = false := by
  simp only [apply_patch] at hr
  split at hr
  · simp at hr
  · exact foldl_apply_no_pull env (parsePatch s) ([], []) (by intro x hx; simp at hx) r hr

/-- The per-file loop records one result per planned file. -/
theorem foldl_apply_results_length (env : Env) (l : List (String × Option String)) :
    ∀ acc : List OperationResult × List Request,
    ((l.foldl
        (fun acc pf =>
          let r := applyFile env pf.1 pf.2
          (acc.1 ++ [r.1], acc.2 ++ r.2)) acc).1).length = acc.1.length + l.length := by
  induction l with
  | nil => intro acc; simp
  | cons pf rest ih =>
    intro acc
    rw [List.foldl_cons, ih]
    simp
    omega

/-! ## Parser soundness invariants (for arbitrary, possibly malformed input) -/

/-- One loop step either keeps the candidate path or takes it from an
`--- a/` header line. -/
theorem parseLine_cf (st : ParseState) (l : String) :
    (parseLine st l).currentFile = st.currentFile ∨
    (pyStarts l "--- a/" = true ∧
      (parseLine st l).currentFile = some (pyDrop l 6)) := by
  unfold parseLine
  split
  · right; exact ⟨by assumption, rfl⟩
  · split
    · left; rfl
    · split
      · split
        · left; rfl
        · split
          · split <;> left <;> rfl
          · split
            · left; rfl
            · split <;> left <;> rfl
      · left; rfl

/-- One loop step either keeps the files dict or assigns to the key given
by the (then truthy) candidate path. -/
theorem parseLine_files (st : ParseState) (l : String) :
    (parseLine st l).files = st.files ∨
    (pyTruthy st.currentFile = true ∧ ∃ v,
      (parseLine st l).files = dictSet st.files (st.currentFile.getD "") v) := by
  unfold parseLine
  split
  · left; rfl
  · split
    · split
      · right
        exact ⟨by assumption, none, rfl⟩
      · left; rfl
    · split
      · have hand : st.inHunk = true ∧ pyTruthy st.currentFile = true := by
          rw [← Bool.and_eq_true]; assumption
        split
        · left; rfl
        · split
          · split <;> left <;> rfl
          · split
            · left; rfl
            · split
              · left; rfl
              · right
                exact ⟨hand.2, some (joinNl st.currentContent), rfl⟩
      · left; rfl

/-- Every key in the files dict produced by the line loop stems from an
`--- a/` header line of the processed input, no matter how malformed the
rest of the input is. -/
theorem foldl_keys (lines : List String) :
    ∀ (st : ParseState) (P : String → Prop),
    (∀ l ∈ lines, pyStarts l "--- a/" = true → P (pyDrop l 6)) →
    (∀ e ∈ st.files, P e.1) →
    (∀ q, st.currentFile = some q → P q) →
    ∀ e ∈ (List.foldl parseLine st lines).files, P e.1 := by
  induction lines with
  | nil => intro st P _ hf _ e he; exact hf e he
  | cons l rest ih =>
    intro st P hl hf hc e he
    rw [List.foldl_cons] at he
    refine ih (parseLine st l) P (fun x hx h => hl x (by simp [hx]) h) ?_ ?_ e he
    · intro x hx
      rcases parseLine_files st l with h | ⟨htr, v, h⟩
      · rw [h] at hx; exact hf x hx
      · rw [h] at hx
        rcases mem_dictSet _ _ _ x hx with h1 | ⟨w, hw⟩
        · have : ∃ q, st.currentFile = some q := by
            cases hq : st.currentFile
            · rw [hq] at htr; simp [pyTruthy] at htr
            · exact ⟨_, rfl⟩
          obtain ⟨q, hq⟩ := this
          rw [hq] at h1
          simp only [Option.getD_some] at h1
          rw [h1]
          exact hc q hq
        · exact hf (x.1, w) hw
    · intro q hq
      rcases parseLine_cf st l with h | ⟨hh, h⟩
      · rw [h] at hq; exact hc q hq
      · rw [h] at hq
        injection hq with hq
        rw [← hq]
        exact hl l (by simp) hh

/-! ## Claim theorems -/

/-- C4 (counterexample): a single rate-limited response is immediately
recorded as a permanent failure.  Here the provider would answer the next
attempt with a 200 response, yet `_make_request` returns failure after the
first response and leaves the second untouched: no internal retry exists,
refuting the claim that the call is retried with bounded backoff before
being recorded as a failure. -/
theorem clm4_no_retry_counterexample :
    makeRequest [HttpResponse.rateLimited 7, HttpResponse.ok 200] =
      ({ success := false, error := some "GitHub API rate limit exceeded",
         retryAfter := some 7 }, [HttpResponse.ok 200]) := by
  rfl

/-- C4 (amended): for every rate-limited response, `_make_request` makes
exactly one HTTP attempt, immediately returns failure carrying the
rate-limit error and the provider's retry-after hint, and performs no
internal retry (the remaining provider responses are never consumed);
retrying is left entirely to callers. -/
theorem clm4_rate_limited_immediate_failure (t : Nat) (rest : List HttpResponse) :
    makeRequest (HttpResponse.rateLimited t :: rest) =
      ({ success := false, error := some "GitHub API rate limit exceeded",
         retryAfter := some t }, rest) := by
  rfl

/-- C6: whenever `apply_patch` reaches the per-file phase (the parsed
change set is non-empty), the aggregate result satisfies: `success` holds
iff every processed file succeeded, `files_processed` is the length of the
per-file results list, and `files_successful` counts the results marked
successful. -/
theorem clm6_accounting (env : Env) (s : String) (hne : parsePatch s ≠ []) :
    ((apply_patch env s).1.success = true ↔
      (apply_patch env s).1.filesSucceeded = (apply_patch env s).1.filesProcessed) ∧
    (apply_patch env s).1.filesProcessed = (apply_patch env s).1.results.length ∧
    (apply_patch env s).1.filesSucceeded =
      ((apply_patch env s).1.results.filter (fun o => o.success)).length := by
  have hni : (parsePatch s).isEmpty = false := by
    cases h : parsePatch s
    · exact absurd h hne
    · rfl
  simp [apply_patch, hni]

/-- Witness for C6 at a concrete one-file patch applied to an empty
repository. -/
theorem clm6_accounting_witness :
    ((apply_patch envNone createPatch).1.success = true ↔
      (apply_patch envNone createPatch).1.filesSucceeded =
        (apply_patch envNone createPatch).1.filesProcessed) ∧
    (apply_patch envNone createPatch).1.filesProcessed =
      (apply_patch envNone createPatch).1.results.length ∧
    (apply_patch envNone createPatch).1.filesSucceeded =
      ((apply_patch envNone createPatch).1.results.filter (fun o => o.success)).length :=
  clm6_accounting envNone createPatch (by decide)

/-- C7 (code bug): for a remote file whose content is empty
(`empty.txt` with blob sha `abc123`), `get_file_content` succeeds but
never extracts the sha, so `_delete_file` sends its DELETE carrying
`"sha": None` instead of the file's current revision token — a write is
attempted even though the token was not resolved.  The update path does
the same: `update_file` refetches, again obtains no sha, and sends the
PUT with `"sha": None`. -/
theorem clm7_sha_lost_on_empty_file :
    env7.getFile "empty.txt" = some { content := "", sha := "abc123" } ∧
    (delete_file env7 "empty.txt").2 =
      [Request.getFile "empty.txt", Request.deleteFile "empty.txt" none] ∧
    (update_file env7 "empty.txt" "new content" none).2 =
      [Request.getFile "empty.txt",
       Request.putUpdate "empty.txt" "new content" none] := by
  refine ⟨rfl, rfl, rfl⟩

/-- C10: the webhook eligibility check accepts an issue exactly when it is
unassigned, open, and carries no label from the configured skip-list; in
every other case (assigned, state not `open`, or a skip-list label
present) it declines. -/
theorem clm10_eligibility (ctx : IssueCtx) :
    should_process_issue ctx = true ↔
      (ctx.assignee = none ∧ ctx.state = some "open" ∧
        ∀ l ∈ ctx.labels, l ∉ skip_labels) := by
  obtain ⟨asg, stt, lbs⟩ := ctx
  cases asg with
  | some a => simp [should_process_issue]
  | none =>
    simp only [should_process_issue, Option.isSome_none, Bool.false_eq_true,
      if_false]
    by_cases hsk : (skip_labels.any fun l => lbs.contains l) = true
    · have hex : ∃ x ∈ skip_labels, x ∈ lbs := by
        rw [List.any_eq_true] at hsk
        obtain ⟨x, hx, hc⟩ := hsk
        exact ⟨x, hx, List.elem_iff.mp hc⟩
      obtain ⟨x, hxs, hxl⟩ := hex
      constructor
      · intro h
        exfalso
        by_cases hcl : (stt == some "closed") = true
        · simp [hcl] at h
        · simp [hcl] at h
          exact absurd hxl (h.1 x hxs)
      · rintro ⟨-, -, hall⟩
        exact absurd hxs (hall x hxl)
    · have hall : ∀ l ∈ lbs, l ∉ skip_labels := by
        intro l hl hls
        apply hsk
        rw [List.any_eq_true]
        exact ⟨l, hls, List.elem_iff.mpr hl⟩
      have hall2 : ∀ x ∈ skip_labels, x ∉ lbs :=
        fun x hxs hxl => (hall x hxl) hxs
      by_cases hcl : (stt == some "closed") = true
      · have hc : stt = some "closed" := by simpa using hcl
        subst hc
        simp [hsk]
      · simp only [hcl, Bool.false_eq_true, if_false, List.any_eq_true]
        simp [hcl]
        exact ⟨fun h => ⟨h.2, hall⟩, fun h => ⟨hall2, h.1⟩⟩

/-- Witness for C10: an unassigned open issue labelled only `bug` is
accepted for processing. -/
theorem clm10_eligibility_witness : should_process_issue ctx0 = true :=
  (clm10_eligibility ctx0).mpr ⟨rfl, rfl, by decide⟩

/-- C2 (counterexample): a diff with two distinct `--- a/f` sections for the
same path parses to an ordinary one-entry mapping holding the second
section's content — no `PathConflict` (the parser has no error outcome at
all) and the second section silently overwrites the first section's
entry. -/
theorem clm2_overwrite_counterexample :
    parsePatch dupPatch = [("f", some "two")] := by
  decide

/-- C2 (amended): for every diff text consisting of two complete file
sections naming the same path, parsing yields no error: the single
resulting entry for that path holds the second section's reconstructed
content, the first section's entry having been silently overwritten. -/
theorem clm2_second_section_overwrites
    (s p : String) (h1 h2 t1 h3 h4 t2 : String) (b1 b2 : List String)
    (hsplit : splitNl s = (h1 :: h2 :: (b1 ++ [t1])) ++ (h3 :: h4 :: (b2 ++ [t2])))
    (hh1 : pyStarts h1 "--- a/" = true) (hp1 : pyDrop h1 6 = p)
    (hh2a : pyStarts h2 "--- a/" = false) (hh2b : pyStarts h2 "+++ b/" = true)
    (hh3 : pyStarts h3 "--- a/" = true) (hp3 : pyDrop h3 6 = p)
    (hh4a : pyStarts h4 "--- a/" = false) (hh4b : pyStarts h4 "+++ b/" = true)
    (hpne : p ≠ "")
    (hb1 : ∀ l ∈ b1, isHunkBodyLine l = true) (ht1 : isTermLine t1 = true)
    (hb2 : ∀ l ∈ b2, isHunkBodyLine l = true) (ht2 : isTermLine t2 = true)
    (hne2 : (stripBody b2).isEmpty = false) :
    parsePatch s = [(p, some (joinNl (stripBody b2)))] := by
  unfold parsePatch
  rw [hsplit, List.foldl_append]
  rw [foldl_section _ h1 h2 t1 b1 p hh1 hp1 hpne hh2a hh2b hb1 ht1]
  rw [foldl_section _ h3 h4 t2 b2 p hh3 hp3 hpne hh4a hh4b hb2 ht2]
  simp [hne2, dictSet_dictSet, dictSet]

/-- Witness for C2 (amended) on a concrete duplicate-path diff: the result
holds only the second section's content. -/
theorem clm2_second_section_overwrites_witness :
    parsePatch dupPatchG = [("g", some "beta\ngamma")] :=
  clm2_second_section_overwrites dupPatchG "g" "--- a/g" "+++ b/g" "END"
    "--- a/g" "+++ b/g" "END" ["@@ -0,0 +1 @@", "+alpha"]
    ["@@ -0,0 +2 @@", "+beta", "+gamma"]
    (by decide) (by decide) (by decide) (by decide) (by decide) (by decide)
    (by decide) (by decide) (by decide) (by decide) (by decide) (by decide)
    (by decide) (by decide) (by decide)

/-- C3 (counterexample): a single-file, single-hunk diff containing only
added lines, but whose text ends while still inside the hunk (no trailing
newline), is parsed to `none` and applied against an empty repository as a
deletion attempt: no Create is performed at all. -/
theorem clm3_unterminated_counterexample :
    parsePatch createPatchNoNl = [("f.txt", none)] ∧
    (apply_patch envNone createPatchNoNl).2 = [Request.getFile "f.txt"] ∧
    (apply_patch envNone createPatchNoNl).1.results =
      [{ filePath := "f.txt", success := false,
         error := some "Could not get file SHA for deletion: GitHub API error" }] := by
  decide

/-- C3 (amended): for every single-file, single-hunk diff whose hunk body
consists of added, context and removed lines with at least one added or
context line, and whose hunk is terminated by an unrecognized line before
the end of the input (for example the empty final line produced by a
trailing newline), application against a repository where the file does
not exist performs exactly one Create whose content is the concatenation,
in input order, of the context and added lines with their one-character
markers stripped; removed lines contribute nothing. -/
theorem clm3_create_from_terminated_hunk (env : Env) (s p : String)
    (h1 h2 term : String) (body : List String)
    (hsplit : splitNl s = h1 :: h2 :: (body ++ [term]))
    (hh1 : pyStarts h1 "--- a/" = true) (hp : pyDrop h1 6 = p) (hpne : p ≠ "")
    (hh2a : pyStarts h2 "--- a/" = false) (hh2b : pyStarts h2 "+++ b/" = true)
    (hbody : ∀ l ∈ body, isHunkBodyLine l = true)
    (hterm : isTermLine term = true)
    (hne : (stripBody body).isEmpty = false)
    (hremote : env.getFile p = none) :
    parsePatch s = [(p, some (joinNl (stripBody body)))] ∧
    (apply_patch env s).2 =
      [Request.getFile p, Request.putCreate p (joinNl (stripBody body))] := by
  have hparse : parsePatch s = [(p, some (joinNl (stripBody body)))] := by
    unfold parsePatch
    rw [hsplit, foldl_section _ h1 h2 term body p hh1 hp hpne hh2a hh2b hbody hterm]
    simp [hne, dictSet]
  refine ⟨hparse, ?_⟩
  simp only [apply_patch, hparse, List.isEmpty_cons, Bool.false_eq_true, if_false,
    List.foldl_cons, List.foldl_nil]
  simp [applyFile, get_file_content, hremote, create_file]

/-- Witness for C3 (amended): the terminated variant of the same diff
creates `f.txt` with content `hello`. -/
theorem clm3_create_from_terminated_hunk_witness :
    parsePatch createPatch = [("f.txt", some "hello")] ∧
    (apply_patch envNone createPatch).2 =
      [Request.getFile "f.txt", Request.putCreate "f.txt" "hello"] :=
  clm3_create_from_terminated_hunk envNone createPatch "f.txt"
    "--- a/f.txt" "+++ b/f.txt" "" ["@@ -0,0 +1 @@", "+hello"]
    (by decide) (by decide) (by decide) (by decide) (by decide) (by decide)
    (by decide) (by decide) (by decide) (by decide)

/-- C5: for every diff whose final file section ends at end-of-input while
still inside a hunk (every remaining line is a recognized added, context,
removed or `@@` line, so no unrecognized terminator follows), the parser
leaves the path mapped to `none` even when added lines accumulated, and
`apply_patch` consequently runs the deletion routine for that file: its
request trace is exactly `_delete_file`'s and contains no create and no
update. -/
theorem clm5_unterminated_is_deletion (env : Env) (s p : String)
    (h1 h2 : String) (body : List String)
    (hsplit : splitNl s = h1 :: h2 :: body)
    (hh1 : pyStarts h1 "--- a/" = true) (hp : pyDrop h1 6 = p) (hpne : p ≠ "")
    (hh2a : pyStarts h2 "--- a/" = false) (hh2b : pyStarts h2 "+++ b/" = true)
    (hbody : ∀ l ∈ body, isHunkBodyLine l = true) :
    parsePatch s = [(p, none)] ∧
    (apply_patch env s).2 = (delete_file env p).2 ∧
    (∀ r ∈ (apply_patch env s).2, r.isCreate = false ∧ r.isUpdate = false) := by
  have hparse : parsePatch s = [(p, none)] := by
    unfold parsePatch
    rw [hsplit, foldl_section_noterm _ h1 h2 body p hh1 hp hpne hh2a hh2b hbody]
    simp [dictSet]
  have htrace : (apply_patch env s).2 = (delete_file env p).2 := by
    simp only [apply_patch, hparse, List.isEmpty_cons, Bool.false_eq_true, if_false,
      List.foldl_cons, List.foldl_nil]
    simp [applyFile]
  refine ⟨hparse, htrace, ?_⟩
  intro r hr
  rw [htrace] at hr
  simp only [delete_file] at hr
  split at hr
  · rw [get_file_content_reqs] at hr
    simp only [List.mem_singleton] at hr
    subst hr
    exact ⟨rfl, rfl⟩
  · rw [get_file_content_reqs] at hr
    simp only [List.mem_append, List.mem_singleton] at hr
    rcases hr with h | h <;> (subst h; exact ⟨rfl, rfl⟩)

/-- Witness for C5: a dangling section with a context and an added line is
parsed to `none` and applied as a deletion of the existing remote file. -/
theorem clm5_unterminated_is_deletion_witness :
    parsePatch danglingPatch = [("a.py", none)] ∧
    (apply_patch envDel danglingPatch).2 = (delete_file envDel "a.py").2 ∧
    (∀ r ∈ (apply_patch envDel danglingPatch).2,
      r.isCreate = false ∧ r.isUpdate = false) :=
  clm5_unterminated_is_deletion envDel danglingPatch "a.py"
    "--- a/a.py" "+++ b/a.py" ["@@ -1,2 +1,3 @@", " line1", "+added"]
    (by decide) (by decide) (by decide) (by decide) (by decide) (by decide)
    (by decide)

/-- C9: the parser is a total function: on every input string — however
malformed — it returns a path-to-content mapping rather than aborting, and
every entry of that mapping stems from an `--- a/` header line of the
input (malformed sections degrade to absent or partial content; no
exception path exists in the embedding because a Python `str` is already
decoded text, the only `ParseError` source). -/
theorem clm9_parse_total_keys_from_headers (s : String)
    (e : String × Option String) (he : e ∈ parsePatch s) :
    ∃ l ∈ splitNl s, pyStarts l "--- a/" = true ∧ pyDrop l 6 = e.1 := by
  unfold parsePatch at he
  exact foldl_keys (splitNl s) ⟨[], none, [], false⟩
    (fun k => ∃ l ∈ splitNl s, pyStarts l "--- a/" = true ∧ pyDrop l 6 = k)
    (fun l hl h => ⟨l, hl, h, rfl⟩)
    (by intro x hx; simp at hx)
    (by intro q hq; simp at hq) e he

/-- Witness for C9 on a malformed input: parsing succeeds, and the single
resulting entry's key comes from the input's `--- a/` line. -/
theorem clm9_parse_total_keys_from_headers_witness :
    (("x", (none : Option String)) ∈ parsePatch garbagePatch) ∧
    (∃ l ∈ splitNl garbagePatch, pyStarts l "--- a/" = true ∧ pyDrop l 6 = "x") :=
  ⟨by decide,
    clm9_parse_total_keys_from_headers garbagePatch ("x", none) (by decide)⟩

/-- C8: whenever branch creation fails (including a failed default-branch
resolution or a failed base-head-sha fetch), `execute_agent_actions`
aborts immediately: it reports failure with no action taken, surfaces the
branch error in its error list, and its request trace contains no file
read, no file write, no deletion and no pull-request creation — only
branch-setup calls were ever issued. -/
theorem clm8_branch_failure_aborts (env : Env) (resp : AgentResponse)
    (issueNumber defaultBranch : String)
    (hfix : resp.canAutoFix = true)
    (hbr : (create_branch env ("autofix-" ++ issueNumber ++ "-" ++ env.nonce)
        (some defaultBranch)).1.success = false) :
    (execute_agent_actions env resp issueNumber defaultBranch).1.success = false ∧
    (execute_agent_actions env resp issueNumber defaultBranch).1.actionsTaken = [] ∧
    (execute_agent_actions env resp issueNumber defaultBranch).1.errors =
      ["Failed to create branch: " ++
        pyStr (create_branch env ("autofix-" ++ issueNumber ++ "-" ++ env.nonce)
          (some defaultBranch)).1.error] ∧
    (execute_agent_actions env resp issueNumber defaultBranch).2.countP
      (fun r => r.isFileOrPrOp) = 0 := by
  have e1 : execute_agent_actions env resp issueNumber defaultBranch =
      ({ success := false, actionsTaken := [],
         errors := ["Failed to create branch: " ++
           pyStr (create_branch env ("autofix-" ++ issueNumber ++ "-" ++ env.nonce)
             (some defaultBranch)).1.error],
         artifacts := [], testBuildId := none, prUrl := none },
       (create_branch env ("autofix-" ++ issueNumber ++ "-" ++ env.nonce)
         (some defaultBranch)).2) := by
    simp only [execute_agent_actions, hfix, Bool.not_true, Bool.false_eq_true,
      if_false, hbr, Bool.not_false, if_true]
  rw [e1]
  refine ⟨rfl, rfl, rfl, ?_⟩
  rw [List.countP_eq_zero]
  intro r hr
  simp [isBranchOp_not_fileOrPr r (create_branch_reqs env _ _ r hr)]

/-- Witness for C8: with every base-head-sha fetch failing, the run aborts
with only the branch error and an empty action list and file/PR-free
trace. -/
theorem clm8_branch_failure_aborts_witness :
    (execute_agent_actions env8 resp1 "7" "main").1.success = false ∧
    (execute_agent_actions env8 resp1 "7" "main").1.actionsTaken = [] ∧
    (execute_agent_actions env8 resp1 "7" "main").1.errors =
      ["Failed to create branch: " ++
        pyStr (create_branch env8 ("autofix-" ++ "7" ++ "-" ++ env8.nonce)
          (some "main")).1.error] ∧
    (execute_agent_actions env8 resp1 "7" "main").2.countP
      (fun r => r.isFileOrPrOp) = 0 :=
  clm8_branch_failure_aborts env8 resp1 "7" "main" (by decide) (by decide)

/-- C1 (counterexample): with three planned files of which exactly the
second write fails, `apply_patch` reports `filesProcessed = 3`,
`filesSucceeded = 2` and overall failure — but the coordinator then aborts
with the patch error and never opens a pull request, refuting the claim
that a PR is still opened when at least one file succeeded. -/
theorem clm1_no_pr_counterexample :
    (apply_patch env1 patch3).1.filesProcessed = 3 ∧
    (apply_patch env1 patch3).1.filesSucceeded = 2 ∧
    (apply_patch env1 patch3).1.success = false ∧
    (execute_agent_actions env1 resp1 "5" "main").2.countP
      (fun r => r.isPull) = 0 ∧
    (execute_agent_actions env1 resp1 "5" "main").1.errors =
      ["Failed to apply patch: None"] := by
  decide

/-- C1 (amended): for every run that reaches patch application and whose
per-file results contain at least one success and at least one failure,
all planned files are attempted and accounted (`filesProcessed` equals the
number of planned files, `filesSucceeded` counts the successful
operations, `overallSucceeded` is false) — but the coordinator does not
open a pull request: it aborts after recording the patch failure, and its
whole request trace contains no pull-request creation. -/
theorem clm1_partial_failure_no_pr (env : Env) (resp : AgentResponse)
    (issueNumber defaultBranch : String)
    (hfix : resp.canAutoFix = true)
    (hpatch : pyTruthy resp.patch = true)
    (hbr : (create_branch env ("autofix-" ++ issueNumber ++ "-" ++ env.nonce)
        (some defaultBranch)).1.success = true)
    (hsome : ∃ o ∈ (apply_patch env (resp.patch.getD "")).1.results,
      o.success = true)
    (hfail : ∃ o ∈ (apply_patch env (resp.patch.getD "")).1.results,
      o.success = false) :
    (apply_patch env (resp.patch.getD "")).1.filesProcessed =
      (parsePatch (resp.patch.getD "")).length ∧
    (apply_patch env (resp.patch.getD "")).1.filesSucceeded =
      ((apply_patch env (resp.patch.getD "")).1.results.filter
        (fun o => o.success)).length ∧
    (apply_patch env (resp.patch.getD "")).1.success = false ∧
    (execute_agent_actions env resp issueNumber defaultBranch).2.countP
      (fun r => r.isPull) = 0 := by
  have hne : (parsePatch (resp.patch.getD "")).isEmpty = false := by
    cases hni : (parsePatch (resp.patch.getD "")).isEmpty
    · rfl
    · exfalso
      have hres : (apply_patch env (resp.patch.getD "")).1.results = [] := by
        simp [apply_patch, hni]
      obtain ⟨o, ho, _⟩ := hsome
      rw [hres] at ho
      simp at ho
  have hsucc : (apply_patch env (resp.patch.getD "")).1.success =
      (((apply_patch env (resp.patch.getD "")).1.results.filter
          (fun o => o.success)).length ==
        (apply_patch env (resp.patch.getD "")).1.results.length) := by
    simp [apply_patch, hne]
  have hfalse : (apply_patch env (resp.patch.getD "")).1.success = false := by
    rw [hsucc, beq_eq_false_iff_ne]
    intro heq
    have hall := List.filter_length_eq_length.mp heq
    obtain ⟨o, ho, hof⟩ := hfail
    have hcontra := hall o ho
    rw [hof] at hcontra
    exact absurd hcontra (by simp)
  have hproc : (apply_patch env (resp.patch.getD "")).1.filesProcessed =
      (parsePatch (resp.patch.getD "")).length := by
    simp only [apply_patch, hne, Bool.false_eq_true, if_false]
    have := foldl_apply_results_length env (parsePatch (resp.patch.getD ""))
      ([], [])
    simpa using this
  have hcount : (apply_patch env (resp.patch.getD "")).1.filesSucceeded =
      ((apply_patch env (resp.patch.getD "")).1.results.filter
        (fun o => o.success)).length := by
    simp [apply_patch, hne]
  have hexec : (execute_agent_actions env resp issueNumber defaultBranch).2 =
      (create_branch env ("autofix-" ++ issueNumber ++ "-" ++ env.nonce)
        (some defaultBranch)).2 ++ (apply_patch env (resp.patch.getD "")).2 := by
    simp only [execute_agent_actions, hfix, Bool.not_true, Bool.false_eq_true,
      if_false, hbr, Bool.not_false, hpatch, if_true, hfalse]
  refine ⟨hproc, hcount, hfalse, ?_⟩
  rw [hexec, List.countP_append]
  have hz1 : (create_branch env ("autofix-" ++ issueNumber ++ "-" ++ env.nonce)
      (some defaultBranch)).2.countP (fun r => r.isPull) = 0 := by
    rw [List.countP_eq_zero]
    intro r hr
    simp [isBranchOp_not_pull r (create_branch_reqs env _ _ r hr)]
  have hz2 : (apply_patch env (resp.patch.getD "")).2.countP
      (fun r => r.isPull) = 0 := by
    rw [List.countP_eq_zero]
    intro r hr
    simp [apply_patch_no_pull env _ r hr]
  rw [hz1, hz2]

/-- Witness for C1 (amended) at the three-file run where file `f2`'s write
fails: accounting holds and no pull request is created. -/
theorem clm1_partial_failure_no_pr_witness :
    (apply_patch env1 (resp1.patch.getD "")).1.filesProcessed =
      (parsePatch (resp1.patch.getD "")).length ∧
    (apply_patch env1 (resp1.patch.getD "")).1.filesSucceeded =
      ((apply_patch env1 (resp1.patch.getD "")).1.results.filter
        (fun o => o.success)).length ∧
    (apply_patch env1 (resp1.patch.getD "")).1.success = false ∧
    (execute_agent_actions env1 resp1 "5" "main").2.countP
      (fun r => r.isPull) = 0 :=
  clm1_partial_failure_no_pr env1 resp1 "5" "main" (by decide) (by decide)
    (by decide) (by decide) (by decide)

end AutoFix
